import Mathlib

/-!
Shallow embedding of the HTTP service in `src/app/main.py`.

The application is a FastAPI app registering three routes at module import:

  @app.get("/")           def root():   return {"message": "Hello from Kubernetes!"}
  @app.get("/health")     def health(): return {"status": "healthy"}
  @app.get("/api/status") def status(): return {"status": "ok"}

We embed the handlers, the route table built at import, and the framework's
request dispatch (Starlette's router, as the spec's "default framework
behavior"): an exact (method, path) match invokes the handler and wraps its
returned dict as a 200 JSON response; a path that matches a registered route
under a different method yields 405 `{"detail": "Method Not Allowed"}`; an
unmatched path yields 404 `{"detail": "Not Found"}`.  A handler raising an
exception would be surfaced as a 500 response; handler bodies are embedded in
`Except` so that this branch is representable.
-/

namespace CICD

/-- HTTP request methods. -/
inductive Method where
  | GET
  | POST
  | PUT
  | DELETE
  | PATCH
  | HEAD
  | OPTIONS
  | TRACE
deriving DecidableEq, Repr

/-- An HTTP request as handed to the router: method and path are what routing
inspects; query parameters, headers and body are carried so that we can state
that they are never consumed. -/
structure Request where
  method : Method
  path : String
  query : List (String × String)
  headers : List (String × String)
  body : String
deriving DecidableEq, Repr

/-- An HTTP response: status code and the serialized (byte-level) JSON body. -/
structure Response where
  status : Nat
  body : String
deriving DecidableEq, Repr

/-- Serialization of a one-level string-to-string dict as FastAPI's
`JSONResponse` renders it (compact separators, no spaces). -/
def renderBody (d : List (String × String)) : String :=
  "\x7b" ++ String.intercalate "," (d.map fun p => "\"" ++ p.1 ++ "\":\"" ++ p.2 ++ "\"") ++ "\x7d"

/-- `def root(): return {"message": "Hello from Kubernetes!"}` — the handler
body is a single dict-literal return, so the embedded call returns `.ok`. -/
def root : Unit → Except String (List (String × String)) :=
  fun _ => .ok [("message", "Hello from Kubernetes!")]

/-- `def health(): return {"status": "healthy"}`. -/
def health : Unit → Except String (List (String × String)) :=
  fun _ => .ok [("status", "healthy")]

/-- `def status(): return {"status": "ok"}`. -/
def status : Unit → Except String (List (String × String)) :=
  fun _ => .ok [("status", "ok")]

/-- A registered route: (method, path) pair mapped to a handler. -/
structure Route where
  method : Method
  path : String
  handler : Unit → Except String (List (String × String))

/-- The route table registered by the three `@app.get` decorators at module
import, in source order. -/
def appRoutes : List Route :=
  [⟨.GET, "/", root⟩, ⟨.GET, "/health", health⟩, ⟨.GET, "/api/status", status⟩]

/-- Framework dispatch over a route table: exact method+path match runs the
handler (200 on a returned dict, 500 on an exception); a path match under a
different method is 405; no path match is 404. -/
def dispatch (routes : List Route) (req : Request) : Response :=
  match routes.find? (fun r => r.path == req.path && r.method == req.method) with
  | some r =>
    match r.handler () with
    | .ok d => ⟨200, renderBody d⟩
    | .error _ => ⟨500, renderBody [("detail", "Internal Server Error")]⟩
  | none =>
    if routes.any (fun r => r.path == req.path) then
      ⟨405, renderBody [("detail", "Method Not Allowed")]⟩
    else
      ⟨404, renderBody [("detail", "Not Found")]⟩

/-- The module-level application state: the route table held by the `app`
object.  The module has no other mutable state. -/
structure AppState where
  routes : List Route

/-- The state of `app` after module import: exactly the three registered
routes. -/
def initApp : AppState :=
  ⟨appRoutes⟩

/-- Handling one request against the application state: the response produced
by dispatch, together with the state after handling.  No handler body touches
any module or application state, so the state passes through unchanged. -/
def handleSt (st : AppState) (req : Request) : Response × AppState :=
  (dispatch st.routes req, st)

/-- The router as served: dispatch against the imported application. -/
def handle (req : Request) : Response :=
  (handleSt initApp req).1

example : handle ⟨.GET, "/health", [], [], ""⟩ =
    ⟨200, "\x7b\"status\":\"healthy\"\x7d"⟩ := by decide

example : handle ⟨.POST, "/health", [], [], ""⟩ =
    ⟨405, "\x7b\"detail\":\"Method Not Allowed\"\x7d"⟩ := by decide

example : handle ⟨.GET, "/unknown", [], [], ""⟩ =
    ⟨404, "\x7b\"detail\":\"Not Found\"\x7d"⟩ := by decide

/-- The three registered paths, in registration order. -/
def registeredPaths : List String :=
  appRoutes.map Route.path

/-- A request whose path is not registered falls through `find?` and the
405 check, yielding the framework 404. -/
lemma handle_unregistered (req : Request) (h : req.path ∉ registeredPaths) :
    handle req = ⟨404, renderBody [("detail", "Not Found")]⟩ := by
  simp only [registeredPaths, appRoutes, List.map_cons, List.map_nil, List.mem_cons,
    List.not_mem_nil, or_false, not_or] at h
  obtain ⟨h1, h2, h3⟩ := h
  have e1 : (("/" : String) == req.path) = false :=
    beq_eq_false_iff_ne.mpr fun e => h1 e.symm
  have e2 : (("/health" : String) == req.path) = false :=
    beq_eq_false_iff_ne.mpr fun e => h2 e.symm
  have e3 : (("/api/status" : String) == req.path) = false :=
    beq_eq_false_iff_ne.mpr fun e => h3 e.symm
  simp [handle, handleSt, initApp, dispatch, appRoutes, List.find?, e1, e2, e3]

/-- A non-GET request on a registered path fails the `find?` method check but
passes the path check, yielding the framework 405. -/
lemma handle_wrong_method (req : Request) (hp : req.path ∈ registeredPaths)
    (hm : req.method ≠ .GET) :
    handle req = ⟨405, renderBody [("detail", "Method Not Allowed")]⟩ := by
  have em : (Method.GET == req.method) = false :=
    beq_eq_false_iff_ne.mpr fun e => hm e.symm
  simp only [registeredPaths, appRoutes, List.map_cons, List.map_nil, List.mem_cons,
    List.not_mem_nil, or_false] at hp
  rcases hp with h | h | h <;>
    simp [handle, handleSt, initApp, dispatch, appRoutes, List.find?, em, h.symm]

/-- Every response of the router carries status 200, 404 or 405: the 500
branch, reachable only from a handler raising, is never taken. -/
lemma handle_status_cases (req : Request) :
    (handle req).status = 200 ∨ (handle req).status = 404 ∨
      (handle req).status = 405 := by
  unfold handle handleSt initApp dispatch
  rcases hf : appRoutes.find? (fun r => r.path == req.path && r.method == req.method)
    with _ | r
  · simp only [hf]
    split
    · right; right; rfl
    · right; left; rfl
  · have hmem : r ∈ appRoutes := List.mem_of_find?_eq_some hf
    simp only [appRoutes, List.mem_cons, List.not_mem_nil, or_false] at hmem
    rcases hmem with h | h | h <;> subst h <;>
      simp [hf, root, health, status]

/-- C1: every `GET /health` request gets HTTP 200 with body exactly
`{"status": "healthy"}`. -/
theorem get_health_ok (req : Request) (hm : req.method = .GET)
    (hp : req.path = "/health") :
    (handle req).status = 200 ∧
      (handle req).body = renderBody [("status", "healthy")] := by
  simp [handle, handleSt, initApp, dispatch, appRoutes, hm, hp, List.find?, health]

/-- Witness for C1 at the concrete request `GET /health`. -/
theorem get_health_ok_witness :
    (handle ⟨.GET, "/health", [], [], ""⟩).status = 200 ∧
      (handle ⟨.GET, "/health", [], [], ""⟩).body = renderBody [("status", "healthy")] :=
  get_health_ok ⟨.GET, "/health", [], [], ""⟩ rfl rfl

/-- C2: every `GET /` request gets HTTP 200 with body exactly
`{"message": "Hello from Kubernetes!"}`. -/
theorem get_root_ok (req : Request) (hm : req.method = .GET)
    (hp : req.path = "/") :
    (handle req).status = 200 ∧
      (handle req).body = renderBody [("message", "Hello from Kubernetes!")] := by
  simp [handle, handleSt, initApp, dispatch, appRoutes, hm, hp, List.find?, root]

/-- Witness for C2 at the concrete request `GET /`. -/
theorem get_root_ok_witness :
    (handle ⟨.GET, "/", [], [], ""⟩).status = 200 ∧
      (handle ⟨.GET, "/", [], [], ""⟩).body =
        renderBody [("message", "Hello from Kubernetes!")] :=
  get_root_ok ⟨.GET, "/", [], [], ""⟩ rfl rfl

/-- C3: every `GET /api/status` request gets HTTP 200 with body exactly
`{"status": "ok"}`. -/
theorem get_api_status_ok (req : Request) (hm : req.method = .GET)
    (hp : req.path = "/api/status") :
    (handle req).status = 200 ∧
      (handle req).body = renderBody [("status", "ok")] := by
  simp [handle, handleSt, initApp, dispatch, appRoutes, hm, hp, List.find?, status]

/-- Witness for C3 at the concrete request `GET /api/status`. -/
theorem get_api_status_ok_witness :
    (handle ⟨.GET, "/api/status", [], [], ""⟩).status = 200 ∧
      (handle ⟨.GET, "/api/status", [], [], ""⟩).body = renderBody [("status", "ok")] :=
  get_api_status_ok ⟨.GET, "/api/status", [], [], ""⟩ rfl rfl

/-- C4 counterexample: `POST /health` — a request with "any other method" on a
registered path — is answered 405 Method Not Allowed, not 404 as the claim
states. -/
theorem post_health_is_405_not_404 :
    (handle ⟨.POST, "/health", [], [], ""⟩).status = 405 ∧
      ((handle ⟨.POST, "/health", [], [], ""⟩).status = 404) = False := by
  constructor
  · decide
  · simp only [eq_iff_iff, iff_false]
    decide

/-- C4 amended: a request on an unregistered path is answered 404; a non-GET
request on a registered path is answered 405 (framework default). -/
theorem unmatched_request_404_405 (req : Request) :
    (req.path ∉ registeredPaths → (handle req).status = 404) ∧
      (req.path ∈ registeredPaths → req.method ≠ .GET → (handle req).status = 405) := by
  constructor
  · intro h
    rw [handle_unregistered req h]
  · intro hp hm
    rw [handle_wrong_method req hp hm]

/-- Witness for C4 amended at `GET /unknown` (the theorem's inner hypotheses
discharged at that concrete request). -/
theorem unmatched_request_404_405_witness :
    (handle ⟨.GET, "/unknown", [], [], ""⟩).status = 404 :=
  (unmatched_request_404_405 ⟨.GET, "/unknown", [], [], ""⟩).1 (by decide)

/-- C5: a non-GET request on a registered path, or any request on an
unregistered path, is never answered 200: its status is 404 or 405. -/
theorem no_spurious_200 (req : Request)
    (h : (req.method ≠ .GET ∧ req.path ∈ registeredPaths) ∨
      req.path ∉ registeredPaths) :
    (handle req).status ≠ 200 ∧
      ((handle req).status = 404 ∨ (handle req).status = 405) := by
  rcases h with ⟨hm, hp⟩ | h
  · rw [handle_wrong_method req hp hm]
    exact ⟨by decide, Or.inr rfl⟩
  · rw [handle_unregistered req h]
    exact ⟨by decide, Or.inl rfl⟩

/-- Witness for C5 at the concrete request `POST /health`. -/
theorem no_spurious_200_witness :
    (handle ⟨.POST, "/health", [], [], ""⟩).status ≠ 200 ∧
      ((handle ⟨.POST, "/health", [], [], ""⟩).status = 404 ∨
        (handle ⟨.POST, "/health", [], [], ""⟩).status = 405) :=
  no_spurious_200 ⟨.POST, "/health", [], [], ""⟩ (Or.inl ⟨by decide, by decide⟩)

/-- C6: the router is deterministic — two invocations on identical requests
yield the same status and a byte-identical body. -/
theorem handle_deterministic (r1 r2 : Request) (h : r1 = r2) :
    (handle r1).status = (handle r2).status ∧ (handle r1).body = (handle r2).body := by
  subst h
  exact ⟨rfl, rfl⟩

/-- Witness for C6 at two (syntactically distinct, equal) copies of
`GET /health`. -/
theorem handle_deterministic_witness :
    (handle ⟨.GET, "/health", [], [], ""⟩).status =
        (handle ⟨.GET, "/health", [], [], ""⟩).status ∧
      (handle ⟨.GET, "/health", [], [], ""⟩).body =
        (handle ⟨.GET, "/health", [], [], ""⟩).body :=
  handle_deterministic ⟨.GET, "/health", [], [], ""⟩ ⟨.GET, "/health", [], [], ""⟩ rfl

/-- C7: the response depends only on method and path — two requests agreeing
on those but differing in query parameters, headers or body get identical
responses. -/
theorem handle_reads_only_method_path (r1 r2 : Request)
    (hm : r1.method = r2.method) (hp : r1.path = r2.path) :
    handle r1 = handle r2 := by
  simp only [handle, handleSt, initApp, dispatch, hm, hp]

/-- Witness for C7: two `GET /health` requests differing in query, headers and
body get the same response. -/
theorem handle_reads_only_method_path_witness :
    handle ⟨.GET, "/health", [("verbose", "1")], [("X-Req", "a")], "payload"⟩ =
      handle ⟨.GET, "/health", [], [], ""⟩ :=
  handle_reads_only_method_path
    ⟨.GET, "/health", [("verbose", "1")], [("X-Req", "a")], "payload"⟩
    ⟨.GET, "/health", [], [], ""⟩ rfl rfl

/-- C8: handling a request mutates nothing — the application state after
handling is the state before. -/
theorem handle_no_side_effects (st : AppState) (req : Request) :
    (handleSt st req).2 = st :=
  rfl

/-- C9: the route table is fixed at module import to exactly the three routes
(GET, "/"), (GET, "/health"), (GET, "/api/status"), and handling any request
against any state leaves the route table unchanged. -/
theorem route_table_fixed :
    initApp.routes.map (fun r => (r.method, r.path)) =
        [(Method.GET, "/"), (Method.GET, "/health"), (Method.GET, "/api/status")] ∧
      ∀ st : AppState, ∀ req : Request, ((handleSt st req).2).routes = st.routes :=
  ⟨rfl, fun _ _ => rfl⟩

/-- C10: each handler is a total constant function returning its fixed one-key
dict and never raising, so the router's 500 branch is unreachable: every
response status is 200, 404 or 405. -/
theorem handlers_total_no_500 :
    (∀ u : Unit, root u = .ok [("message", "Hello from Kubernetes!")]) ∧
      (∀ u : Unit, health u = .ok [("status", "healthy")]) ∧
      (∀ u : Unit, status u = .ok [("status", "ok")]) ∧
      ∀ req : Request, (handle req).status = 200 ∨ (handle req).status = 404 ∨
        (handle req).status = 405 :=
  ⟨fun _ => rfl, fun _ => rfl, fun _ => rfl, handle_status_cases⟩

end CICD
